import Mathlib

/-!
Shallow embedding of `src/Telegram/SourceFiles/lottie/lottie_animation.cpp`
(Telegram Desktop: Lottie animation loading, initialization and frame pacing).

External collaborators whose sources are not part of the embedded file
(zlib, rlottie, Qt, crl, the frame renderer pool, the cache and the shared
playback state) are modelled as explicit parameters or as structures whose
doc comments record what they stand for.
-/

namespace Lottie

/-- Modelled from the spec: the hard ceiling on content size. `kMaxFileSize`
is declared in a header that is not under `src/`; the spec's Scenario B uses
1MB. Every theorem below is independent of the concrete value. -/
def kMaxFileSize : Nat := 1024 * 1024

/-- Modelled from the spec: the explicit "unknown" sentinel for `crl::time`
values (`kTimeUnknown`, declared outside `src/`). -/
def kTimeUnknown : Int := -1

/-- Error taxonomy used by initialization: `ParseFailed` and `NotSupported`. -/
inductive Error where
  | ParseFailed
  | NotSupported
deriving DecidableEq

/-- Model of `QSize`. -/
structure QSize where
  w : Int
  h : Int
deriving DecidableEq

/-- Qt's `QSize::isEmpty`: width or height at most zero. -/
def QSize.isEmpty (s : QSize) : Bool :=
  decide (s.w ≤ 0) || decide (s.h ≤ 0)

/-- The metadata snapshot reported by a shared playback state. The field
types follow the repository's `Information` struct (C++ `int` fields and a
`QSize`), declared in a header that is not under `src/`. -/
structure AnimationInformation where
  frameRate : Int
  framesCount : Int
  size : QSize
deriving DecidableEq

/-- Model of `QImage`: a null flag plus abstract pixel data. -/
structure QImage where
  isNull : Bool
  bits : List Nat
deriving DecidableEq

/-- A default-constructed `QImage()`: the null image with no data. -/
def QImage.defaultConstructed : QImage := { isNull := true, bits := [] }

/-- `FrameRequest` is only passed through and compared here; an opaque token. -/
abbrev FrameRequest := Nat

/-- The `put` persist callback handed to the cache; opaque token. -/
abbrev PutFn := Nat

/-- File paths (`QString`) are opaque tokens. -/
abbrev QString := Nat

/-- An opaque `rlottie::Animation` handle returned by the decode library. -/
structure RlottieAnimation where
  token : Nat
deriving DecidableEq

/-- Modelled from the spec: the frame object handed out by the shared state
for painting; it carries the original raster and the stored request. -/
structure Frame where
  original : QImage
  request : FrameRequest
deriving DecidableEq

/-- Modelled from the spec: the Shared Playback State collaborator
(`lottie_frame_renderer.cpp` is not under `src/`). It owns the captured
`AnimationInformation`, an internal clock started at `started`, the next due
display time (or the unknown sentinel), the time of the last recorded
display, and the current paintable frame. -/
structure SharedState where
  information : AnimationInformation
  started : Int
  nextDisplay : Int
  lastDisplayed : Int
  frameForPaint : Frame
deriving DecidableEq

/-- Modelled from the spec: `markFrameDisplayed now` records the display at
`now` and returns the playback-position value, the time elapsed on the
state's internal clock, `now - started`. -/
def SharedState.markFrameDisplayed (s : SharedState) (now : Int) :
    SharedState × Int :=
  ({ s with lastDisplayed := now }, now - s.started)

/-- Modelled from the spec: the Cache collaborator (`lottie_cache.cpp` is not
under `src/`), constructed from cached bytes, a request and a persist
callback; it reports the frame counts `framesCount` and `framesReady`. -/
structure Cache where
  framesCount : Nat
  framesReady : Nat
deriving DecidableEq

/-- `details::InitData`: a variant holding the shared state or an error. -/
inductive InitData where
  | state (state : SharedState)
  | error (error : Error)
deriving DecidableEq

/-- zlib's `Z_OK`. -/
def Z_OK : Int := 0

/-- zlib's `Z_STREAM_END`. -/
def Z_STREAM_END : Int := 1

/-- Model of the zlib collaborator used by the single-shot inflate in
`UnpackGzip`. `initRes` is the result of `inflateInit2`. `inflateData` is
the abstract stream contract: `some x` when the input is a valid gzip
compression of `x` (one inflate call then produces `x`, or as much of it as
the output buffer holds, answering `Z_STREAM_END` exactly when all of `x`
fit), and `none` when inflate reports a result other than `Z_OK` and
`Z_STREAM_END` (bad header or corrupt data). -/
structure Zlib where
  initRes : Int
  inflateData : List Nat → Option (List Nat)

/-- `UnpackGzip` (source lines 25-57): a single-shot gzip inflate into a
scratch buffer of `kMaxFileSize + 1` bytes. Stream-init failure, an inflate
error, or exhaustion of the output buffer (the decompressed data needs all
`kMaxFileSize + 1` bytes or more) all return the original bytes; otherwise
the buffer is resized down to the bytes written and returned. -/
def UnpackGzip (z : Zlib) (bytes : List Nat) : List Nat :=
  let original := bytes
  if z.initRes ≠ Z_OK then
    original
  else
    let bufferSize := kMaxFileSize + 1
    match z.inflateData bytes with
    | none => original
    | some out => if bufferSize ≤ out.length then original else out

/-- Model of a `QFile` as observed by `ReadFile`: its size, whether opening
for reading succeeds, and the bytes `readAll` returns. -/
structure File where
  size : Nat
  openOk : Bool
  contents : List Nat

/-- `ReadFile` (source lines 59-64): return the file's contents when its size
is within `kMaxFileSize` and it opens; otherwise an empty buffer. -/
def ReadFile (fs : QString → File) (filepath : QString) : List Nat :=
  let f := fs filepath
  if f.size ≤ kMaxFileSize ∧ f.openOk = true then f.contents else []

/-- `ReadContent` (source lines 66-68): duplicate non-empty `data`, else read
the file at `filepath`. -/
def ReadContent (fs : QString → File) (data : List Nat) (filepath : QString) :
    List Nat :=
  if data.isEmpty then ReadFile fs filepath else data

/-- `ContentError` (source lines 70-76): `ParseFailed` when the content is
larger than `kMaxFileSize`, otherwise no error. -/
def ContentError (content : List Nat) : Option Error :=
  if kMaxFileSize < content.length then some Error.ParseFailed else none

/-- `CheckSharedState` (source lines 78-88): reject the state with
`NotSupported` when `!information.frameRate`, `information.framesCount <= 0`
or `information.size.isEmpty()`; otherwise pass the state through. -/
def CheckSharedState (state : SharedState) : InitData :=
  let information := state.information
  if decide (information.frameRate = 0)
      || decide (information.framesCount ≤ 0)
      || information.size.isEmpty then
    InitData.error Error.NotSupported
  else
    InitData.state state

/-- The bundle of external collaborators used by initialization: the zlib
stream model, rlottie's `loadFromData` (an empty result signals failure,
never a raised fault), and the shared-state and cache constructors (their
sources are not under `src/`; modelled from the spec as opaque builders). -/
structure Env where
  zlib : Zlib
  loadFromData : List Nat → Option RlottieAnimation
  mkState : RlottieAnimation → FrameRequest → SharedState
  mkCache : List Nat → FrameRequest → PutFn → Cache
  mkStateCached :
    List Nat → Option RlottieAnimation → Cache → FrameRequest → SharedState

/-- `details::CreateFromContent` (source lines 129-139): unpack, then hand
the bytes to the decode library. -/
def CreateFromContent (env : Env) (content : List Nat) :
    Option RlottieAnimation :=
  let string := UnpackGzip env.zlib content
  env.loadFromData string

/-- The condition of the `Assert(string.size() <= kMaxFileSize)` inside
`details::CreateFromContent` (source line 132). -/
def CreateFromContentAssert (env : Env) (content : List Nat) : Bool :=
  decide ((UnpackGzip env.zlib content).length ≤ kMaxFileSize)

/-- `Init` without a cache (source lines 90-102). The second component
counts the calls to `details::CreateFromContent` (the decode library), so
"the decode library is never invoked" is `.2 = 0`. -/
def Init (env : Env) (content : List Nat) (request : FrameRequest) :
    InitData × Nat :=
  match ContentError content with
  | some error => (InitData.error error, 0)
  | none =>
    match CreateFromContent env content with
    | some animation => (CheckSharedState (env.mkState animation request), 1)
    | none => (InitData.error Error.ParseFailed, 1)

/-- The cache-aware `Init` overload (source lines 104-123). The second
component counts the calls to `details::CreateFromContent`. -/
def InitCached (env : Env) (content : List Nat) (put : PutFn)
    (cached : List Nat) (request : FrameRequest) : InitData × Nat :=
  match ContentError content with
  | some error => (InitData.error error, 0)
  | none =>
    let cache := env.mkCache cached request put
    let prepare : Bool :=
      decide (cache.framesCount = 0)
        || decide (cache.framesReady < cache.framesCount)
    let animation := if prepare then CreateFromContent env content else none
    let calls := if prepare then 1 else 0
    if !prepare || animation.isSome then
      (CheckSharedState (env.mkStateCached content animation cache request),
        calls)
    else
      (InitData.error Error.ParseFailed, calls)

/-- `ReadThumbnail` (source lines 163-170): run `Init` with a default
`FrameRequest()`; on success return the first paintable frame's original
image, on error a default-constructed `QImage`. -/
def ReadThumbnail (env : Env) (content : List Nat) : QImage :=
  match (Init env content 0).1 with
  | InitData.state state => state.frameForPaint.original
  | InitData.error _ => QImage.defaultConstructed

/-- Model of the one-shot `base::Timer`: whether it is armed and the timeout
it was last armed with. -/
structure Timer where
  active : Bool
  delay : Int
deriving DecidableEq

/-- `base::Timer::callOnce(timeout)`: arm the one-shot timer. -/
def Timer.callOnce (_t : Timer) (timeout : Int) : Timer :=
  { active := true, delay := timeout }

/-- `base::Timer::cancel()`: disarm the timer. -/
def Timer.cancel (_t : Timer) : Timer :=
  { active := false, delay := 0 }

/-- An `Update` fired on the controller's event stream. -/
inductive Update where
  | informationReady (information : AnimationInformation)
  | displayFrameRequest (position : Int)
deriving DecidableEq

/-- The pacing-relevant part of the `Animation` controller: the
`_nextFrameTime` field (a concrete time or `kTimeUnknown`), the one-shot
`_timer`, the observed shared playback state and the list of updates fired
so far on `_updates`. -/
structure Animation where
  nextFrameTime : Int
  timer : Timer
  st : SharedState
  updates : List Update
deriving DecidableEq

/-- `Animation::markFrameDisplayed` (source lines 254-260): delegate to the
shared state and return its playback-position value. -/
def Animation.markFrameDisplayed (a : Animation) (now : Int) :
    Animation × Int :=
  let p := a.st.markFrameDisplayed now
  ({ a with st := p.1 }, p.2)

/-- `Animation::checkNextFrameRender` (source lines 288-303): when `now` is
before `_nextFrameTime`, arm the one-shot timer for the remaining delta only
if it is not already active; otherwise cancel the timer, reset
`_nextFrameTime` to `kTimeUnknown`, record the display through
`markFrameDisplayed(now)` and fire a `DisplayFrameRequest` carrying the
returned position. `now` (the value of `crl::now()`) is an explicit
parameter. -/
def Animation.checkNextFrameRender (a : Animation) (now : Int) : Animation :=
  if now < a.nextFrameTime then
    if a.timer.active = false then
      { a with timer := a.timer.callOnce (a.nextFrameTime - now) }
    else
      a
  else
    let a1 := { a with timer := a.timer.cancel }
    let a2 := { a1 with nextFrameTime := kTimeUnknown }
    let p := a2.markFrameDisplayed now
    { p.1 with updates := p.1.updates ++ [Update.displayFrameRequest p.2] }

/-- The dispatch performed by `Animation::initDone` (source lines 206-212):
a state goes to `parseDone`, an error goes to `parseFailed`. -/
inductive InitDispatch where
  | parseDone (state : SharedState)
  | parseFailed (error : Error)
deriving DecidableEq

/-- `Animation::initDone`: match on the `InitData` variant and dispatch. -/
def initDone (data : InitData) : InitDispatch :=
  match data with
  | InitData.state state => InitDispatch.parseDone state
  | InitData.error error => InitDispatch.parseFailed error

/-- Modelled from the spec: the lifecycle of one controller instance together
with the single completion callback its constructor schedules through
`crl::on_main(weak, ...)` (the `crl` and `base::weak_ptr` sources are not
under `src/`; the spec describes a liveness-checked, exactly-once, cancelable
dispatch). `alive` is whether the controller still exists, `pending` whether
the scheduled callback has not yet been delivered, and `initDoneRuns` how
many times `initDone` has executed. -/
structure LifeState where
  alive : Bool
  pending : Bool
  initDoneRuns : Nat
deriving DecidableEq

/-- The state right after construction: the controller is alive and exactly
one completion callback is scheduled. -/
def LifeState.start : LifeState :=
  { alive := true, pending := true, initDoneRuns := 0 }

/-- One event of the lifecycle: the callback is delivered while the
controller is alive (running `initDone`), the callback is delivered after
destruction (the weak-pointer guard makes it a no-op), or the controller is
destroyed. -/
inductive LifeStep : LifeState → LifeState → Prop where
  | deliverAlive (s : LifeState) :
      s.pending = true → s.alive = true →
      LifeStep s ⟨s.alive, false, s.initDoneRuns + 1⟩
  | deliverDead (s : LifeState) :
      s.pending = true → s.alive = false →
      LifeStep s ⟨s.alive, false, s.initDoneRuns⟩
  | destroy (s : LifeState) :
      s.alive = true →
      LifeStep s ⟨false, s.pending, s.initDoneRuns⟩

/-- A lifecycle state reachable from construction. -/
def ReachableLife (s : LifeState) : Prop :=
  Relation.ReflTransGen LifeStep LifeState.start s

/-! Concrete collaborator instances used to evaluate the theorems below on
concrete inputs. -/

/-- A zlib whose stream initialization fails. -/
def zlibFailInit : Zlib := { initRes := 1, inflateData := fun _ => none }

/-- A zlib that rejects every input as non-gzip. -/
def zlibReject : Zlib := { initRes := Z_OK, inflateData := fun _ => none }

/-- A zlib whose decompressed output overflows the one-shot buffer. -/
def zlibHuge : Zlib :=
  { initRes := Z_OK,
    inflateData := fun _ => some (List.replicate (kMaxFileSize + 1) 0) }

/-- A zlib for which `[9]` is a valid gzip compression of `[1, 2, 3]` and
everything else is malformed. -/
def zlibPair : Zlib :=
  { initRes := Z_OK,
    inflateData := fun b => if b = [9] then some [1, 2, 3] else none }

/-- A shared state carrying all-zero metadata. -/
def stateZero : SharedState :=
  { information := { frameRate := 0, framesCount := 0, size := ⟨0, 0⟩ },
    started := 0, nextDisplay := 0, lastDisplayed := 0,
    frameForPaint := { original := { isNull := false, bits := [5] }
                       request := 0 } }

/-- A shared state carrying valid metadata: 30fps, 10 frames, 100x100. -/
def stateGood : SharedState :=
  { information := { frameRate := 30, framesCount := 10, size := ⟨100, 100⟩ },
    started := 0, nextDisplay := 0, lastDisplayed := 0,
    frameForPaint := { original := { isNull := false, bits := [7] }
                       request := 0 } }

/-- An environment whose decode library rejects everything and whose cache is
empty. -/
def envFail : Env :=
  { zlib := zlibReject,
    loadFromData := fun _ => none,
    mkState := fun _ _ => stateZero,
    mkCache := fun _ _ _ => { framesCount := 0, framesReady := 0 },
    mkStateCached := fun _ _ _ _ => stateZero }

/-- An environment whose decode library succeeds, producing valid metadata,
and whose cache is complete with 10 frames. -/
def envGood : Env :=
  { zlib := zlibReject,
    loadFromData := fun _ => some ⟨0⟩,
    mkState := fun _ _ => stateGood,
    mkCache := fun _ _ _ => { framesCount := 10, framesReady := 10 },
    mkStateCached := fun _ _ _ _ => stateGood }

/-! Claim theorems. -/

/-- C1: for every content buffer whose size exceeds `kMaxFileSize`, both
`Init` overloads return the `ParseFailed` error, and
`details::CreateFromContent` / `loadFromData` is never invoked on that
content (the decode-call count is 0). -/
theorem init_oversized_parseFailed (env : Env) (content : List Nat)
    (request : FrameRequest) (put : PutFn) (cached : List Nat)
    (request2 : FrameRequest) (h : kMaxFileSize < content.length) :
    Init env content request = (InitData.error Error.ParseFailed, 0)
    ∧ InitCached env content put cached request2
        = (InitData.error Error.ParseFailed, 0) := by
  constructor
  · simp [Init, ContentError, h]
  · simp [InitCached, ContentError, h]

/-- Witness for C1: a buffer one byte over the ceiling, in both overloads. -/
theorem init_oversized_parseFailed_witness :
    Init envFail (List.replicate (kMaxFileSize + 1) 0) 0
        = (InitData.error Error.ParseFailed, 0)
    ∧ InitCached envFail (List.replicate (kMaxFileSize + 1) 0) 0 [] 0
        = (InitData.error Error.ParseFailed, 0) :=
  init_oversized_parseFailed envFail (List.replicate (kMaxFileSize + 1) 0)
    0 0 [] 0 (by simp [List.length_replicate])

/-- Helper for C2: under the size check, the decode-call count of the
cache-aware `Init` is 1 exactly when the cache is empty or partial. -/
theorem initCached_calls (env : Env) (content : List Nat) (put : PutFn)
    (cached : List Nat) (request : FrameRequest)
    (hsize : content.length ≤ kMaxFileSize) :
    (InitCached env content put cached request).2
      = if (env.mkCache cached request put).framesCount = 0
            ∨ (env.mkCache cached request put).framesReady
              < (env.mkCache cached request put).framesCount
        then 1 else 0 := by
  have hce : ContentError content = none := by
    simp [ContentError, Nat.not_lt.mpr hsize]
  simp only [InitCached, hce]
  by_cases h : ((env.mkCache cached request put).framesCount = 0
      ∨ (env.mkCache cached request put).framesReady
        < (env.mkCache cached request put).framesCount)
  · simp only [if_pos h]
    rcases h with h | h <;> simp [h] <;> split <;> rfl
  · push_neg at h
    simp [h.1, Nat.not_lt.mpr h.2]

/-- C2: in the cache-aware `Init`, for every content/cache pair passing the
size check, the decode library is invoked iff the cache reports
`framesCount = 0` or `framesReady < framesCount`; a complete cache
(`framesReady = framesCount > 0`) never triggers a decode call; an empty or
partial cache always does; and when a needed decode fails the result is
`ParseFailed`. -/
theorem initCached_decode_characterization (env : Env) (content : List Nat)
    (put : PutFn) (cached : List Nat) (request : FrameRequest)
    (hsize : content.length ≤ kMaxFileSize) :
    ((InitCached env content put cached request).2 = 1 ↔
      ((env.mkCache cached request put).framesCount = 0
        ∨ (env.mkCache cached request put).framesReady
          < (env.mkCache cached request put).framesCount))
    ∧ (0 < (env.mkCache cached request put).framesCount →
        (env.mkCache cached request put).framesReady
          = (env.mkCache cached request put).framesCount →
        (InitCached env content put cached request).2 = 0)
    ∧ (((env.mkCache cached request put).framesCount = 0
        ∨ (env.mkCache cached request put).framesReady
          < (env.mkCache cached request put).framesCount) →
        (InitCached env content put cached request).2 = 1)
    ∧ (((env.mkCache cached request put).framesCount = 0
        ∨ (env.mkCache cached request put).framesReady
          < (env.mkCache cached request put).framesCount) →
        CreateFromContent env content = none →
        (InitCached env content put cached request).1
          = InitData.error Error.ParseFailed) := by
  have hcalls := initCached_calls env content put cached request hsize
  have hce : ContentError content = none := by
    simp [ContentError, Nat.not_lt.mpr hsize]
  refine ⟨?_, ?_, ?_, ?_⟩
  · rw [hcalls]; split <;> simp_all
  · intro hpos heq
    rw [hcalls, if_neg]
    rintro (h | h) <;> omega
  · intro h
    rw [hcalls, if_pos h]
  · intro h hanim
    simp only [InitCached, hce]
    rcases h with h | h <;> simp [h, hanim]

/-- Witness for C2 at an empty cache whose needed decode fails. -/
theorem initCached_decode_characterization_witness :
    ((InitCached envFail [] 0 [] 0).2 = 1 ↔
      ((envFail.mkCache [] 0 0).framesCount = 0
        ∨ (envFail.mkCache [] 0 0).framesReady
          < (envFail.mkCache [] 0 0).framesCount))
    ∧ (0 < (envFail.mkCache [] 0 0).framesCount →
        (envFail.mkCache [] 0 0).framesReady
          = (envFail.mkCache [] 0 0).framesCount →
        (InitCached envFail [] 0 [] 0).2 = 0)
    ∧ (((envFail.mkCache [] 0 0).framesCount = 0
        ∨ (envFail.mkCache [] 0 0).framesReady
          < (envFail.mkCache [] 0 0).framesCount) →
        (InitCached envFail [] 0 [] 0).2 = 1)
    ∧ (((envFail.mkCache [] 0 0).framesCount = 0
        ∨ (envFail.mkCache [] 0 0).framesReady
          < (envFail.mkCache [] 0 0).framesCount) →
        CreateFromContent envFail [] = none →
        (InitCached envFail [] 0 [] 0).1
          = InitData.error Error.ParseFailed) :=
  initCached_decode_characterization envFail [] 0 [] 0 (by decide)

/-- A shared state whose metadata has a negative frame rate: it violates the
spec's `frameRate > 0` yet passes the source's `!information.frameRate`
check (the frame-rate field is a C++ `int`). -/
def stateNegativeRate : SharedState :=
  { information := { frameRate := -1, framesCount := 1, size := ⟨1, 1⟩ },
    started := 0, nextDisplay := 0, lastDisplayed := 0,
    frameForPaint := { original := { isNull := false, bits := [] }
                       request := 0 } }

/-- Counterexample to C3 as stated: a decoded state whose metadata violates
`frameRate > 0` (its frame rate is -1) for which `CheckSharedState` does not
return `NotSupported` but passes the state through, so Ready is reached. -/
theorem checkSharedState_negative_rate_counterexample :
    ¬(0 < stateNegativeRate.information.frameRate)
    ∧ CheckSharedState stateNegativeRate ≠ InitData.error Error.NotSupported
    ∧ CheckSharedState stateNegativeRate
        = InitData.state stateNegativeRate := by
  decide

/-- C3 amended: `CheckSharedState` returns `NotSupported` exactly when the
metadata violates `frameRate ≠ 0 ∧ framesCount > 0 ∧ size non-empty` (the
source checks `!information.frameRate`, i.e. `frameRate = 0`, not the spec's
`frameRate > 0`), and returns the state (from which alone Ready is reached)
exactly when all three conditions hold. -/
theorem checkSharedState_valid (s : SharedState) :
    (CheckSharedState s = InitData.error Error.NotSupported ↔
      (s.information.frameRate = 0 ∨ s.information.framesCount ≤ 0
        ∨ s.information.size.isEmpty = true))
    ∧ (CheckSharedState s = InitData.state s ↔
      (s.information.frameRate ≠ 0 ∧ 0 < s.information.framesCount
        ∧ s.information.size.isEmpty = false)) := by
  unfold CheckSharedState
  by_cases h1 : s.information.frameRate = 0 <;>
    by_cases h2 : s.information.framesCount ≤ 0 <;>
      by_cases h3 : s.information.size.isEmpty = true <;>
        simp_all

/-- C4: `checkNextFrameRender` with a known `nextFrameTime`: before the due
time it arms the one-shot timer for the remaining delta only when the timer
is not already active (an already-active timer leaves the controller
unchanged, so one pending due time is never double-armed); once due it
cancels any armed timer, resets `nextFrameTime` to the unknown sentinel,
records the display via `markFrameDisplayed(now)`, and fires
`DisplayFrameRequest` with a position not exceeding `now`. The hypothesis
`0 ≤ a.st.started` says the state's internal clock was started at a genuine
(non-negative) wall-clock instant. -/
theorem checkNextFrameRender_spec (a : Animation) (now : Int)
    (hknown : a.nextFrameTime ≠ kTimeUnknown) (hstart : 0 ≤ a.st.started) :
    (now < a.nextFrameTime →
      (a.timer.active = true → a.checkNextFrameRender now = a)
      ∧ (a.timer.active = false →
          a.checkNextFrameRender now
            = { a with
                timer := { active := true, delay := a.nextFrameTime - now } }))
    ∧ (a.nextFrameTime ≤ now →
      (a.checkNextFrameRender now).timer.active = false
      ∧ (a.checkNextFrameRender now).nextFrameTime = kTimeUnknown
      ∧ (a.checkNextFrameRender now).st.lastDisplayed = now
      ∧ (a.checkNextFrameRender now).updates
          = a.updates ++ [Update.displayFrameRequest (now - a.st.started)]
      ∧ now - a.st.started ≤ now) := by
  constructor
  · intro hlt
    constructor
    · intro hact
      simp [Animation.checkNextFrameRender, hlt, hact]
    · intro hact
      simp [Animation.checkNextFrameRender, Timer.callOnce, hlt, hact]
  · intro hge
    have hnlt : ¬(now < a.nextFrameTime) := by omega
    simp only [Animation.checkNextFrameRender, if_neg hnlt,
      Animation.markFrameDisplayed, SharedState.markFrameDisplayed,
      Timer.cancel]
    exact ⟨trivial, trivial, trivial, trivial, by omega⟩

/-- A concrete controller whose next frame is due at time 5 with an armed
timer. -/
def animDue : Animation :=
  { nextFrameTime := 5, timer := { active := true, delay := 3 },
    st := stateGood, updates := [] }

/-- Witness for C4: a due tick (`now = 10`) on a concrete controller. -/
theorem checkNextFrameRender_spec_witness :
    ((10 : Int) < animDue.nextFrameTime →
      (animDue.timer.active = true →
          animDue.checkNextFrameRender 10 = animDue)
      ∧ (animDue.timer.active = false →
          animDue.checkNextFrameRender 10
            = { animDue with
                timer := { active := true
                           delay := animDue.nextFrameTime - 10 } }))
    ∧ (animDue.nextFrameTime ≤ 10 →
      (animDue.checkNextFrameRender 10).timer.active = false
      ∧ (animDue.checkNextFrameRender 10).nextFrameTime = kTimeUnknown
      ∧ (animDue.checkNextFrameRender 10).st.lastDisplayed = 10
      ∧ (animDue.checkNextFrameRender 10).updates
          = animDue.updates
              ++ [Update.displayFrameRequest (10 - animDue.st.started)]
      ∧ 10 - animDue.st.started ≤ 10) :=
  checkNextFrameRender_spec animDue 10 (by decide) (by decide)

/-- C5: `UnpackGzip` returns the original input bytes unchanged on a
stream-initialization failure, on a non-gzip header or corrupt data (any
inflate result other than `Z_OK` and `Z_STREAM_END`, modelled by
`inflateData = none`), and on exhaustion of the one-shot output buffer of
size `kMaxFileSize + 1`; none of these raises an error. -/
theorem unpackGzip_fallback (z : Zlib) (bytes : List Nat) :
    (z.initRes ≠ Z_OK → UnpackGzip z bytes = bytes)
    ∧ (z.inflateData bytes = none → UnpackGzip z bytes = bytes)
    ∧ (∀ out, z.inflateData bytes = some out →
        kMaxFileSize + 1 ≤ out.length → UnpackGzip z bytes = bytes) := by
  refine ⟨?_, ?_, ?_⟩
  · intro h
    simp [UnpackGzip, h]
  · intro h
    by_cases hinit : z.initRes = Z_OK
    · simp [UnpackGzip, hinit, h]
    · simp [UnpackGzip, hinit]
  · intro out hout hlen
    by_cases hinit : z.initRes = Z_OK
    · simp [UnpackGzip, hinit, hout, hlen]
    · simp [UnpackGzip, hinit]

/-- Witness for C5: the three fallback cases on concrete zlib models and
buffers. -/
theorem unpackGzip_fallback_witness :
    UnpackGzip zlibFailInit [3] = [3]
    ∧ UnpackGzip zlibReject [4] = [4]
    ∧ UnpackGzip zlibHuge [2] = [2] :=
  ⟨(unpackGzip_fallback zlibFailInit [3]).1 (by decide),
    (unpackGzip_fallback zlibReject [4]).2.1 rfl,
    (unpackGzip_fallback zlibHuge [2]).2.2
      (List.replicate (kMaxFileSize + 1) 0) rfl
      (by simp [List.length_replicate])⟩

/-- C6: with a working stream initialization, applying `UnpackGzip` to a
valid gzip compression of `x` (an input `b` with `inflateData b = some x`)
returns exactly `x` whenever `x` fits in the size bound, and applying it to
malformed or non-gzip input returns that input unchanged. -/
theorem unpackGzip_roundtrip (z : Zlib) (b x : List Nat)
    (hinit : z.initRes = Z_OK) (hvalid : z.inflateData b = some x)
    (hsize : x.length ≤ kMaxFileSize) :
    UnpackGzip z b = x
    ∧ ∀ m, z.inflateData m = none → UnpackGzip z m = m := by
  constructor
  · have hlt : ¬(kMaxFileSize + 1 ≤ x.length) := by omega
    simp [UnpackGzip, hinit, hvalid, hlt]
  · intro m hm
    simp [UnpackGzip, hinit, hm]

/-- Witness for C6: `[9]` is `zlibPair`'s gzip compression of `[1, 2, 3]`
and round-trips to it; `[8]` is malformed and passes through. -/
theorem unpackGzip_roundtrip_witness :
    UnpackGzip zlibPair [9] = [1, 2, 3]
    ∧ ∀ m, zlibPair.inflateData m = none → UnpackGzip zlibPair m = m :=
  unpackGzip_roundtrip zlibPair [9] [1, 2, 3] rfl (by decide) (by decide)

/-- C9: for every input of size at most `kMaxFileSize`, the result of
`UnpackGzip` has size at most `kMaxFileSize` (it is either the unchanged
original or a decompressed result that left at least one unused byte in the
`kMaxFileSize + 1` scratch buffer), so the `Assert` in
`details::CreateFromContent` never fails. -/
theorem unpackGzip_size_bound (env : Env) (bytes : List Nat)
    (h : bytes.length ≤ kMaxFileSize) :
    (UnpackGzip env.zlib bytes).length ≤ kMaxFileSize
    ∧ CreateFromContentAssert env bytes = true := by
  have hmain : (UnpackGzip env.zlib bytes).length ≤ kMaxFileSize := by
    unfold UnpackGzip
    by_cases hinit : env.zlib.initRes = Z_OK
    · simp only [hinit, ne_eq, not_true_eq_false, if_false]
      cases hout : env.zlib.inflateData bytes with
      | none => simpa using h
      | some out =>
          simp only []
          by_cases hlen : kMaxFileSize + 1 ≤ out.length
          · simpa [hlen] using h
          · simp only [if_neg hlen]
            omega
    · simp [hinit, h]
  exact ⟨hmain, by simpa [CreateFromContentAssert] using hmain⟩

/-- Witness for C9 at a concrete small buffer. -/
theorem unpackGzip_size_bound_witness :
    (UnpackGzip envGood.zlib [1, 2]).length ≤ kMaxFileSize
    ∧ CreateFromContentAssert envGood [1, 2] = true :=
  unpackGzip_size_bound envGood [1, 2] (by decide)

/-- C7: `ReadContent` returns a duplicate of `data` when `data` is
non-empty; when `data` is empty it returns the contents of the file at
`filepath` only if the file's size is within `kMaxFileSize` and it opens
successfully, and otherwise an empty buffer (the function is total: no
exception is raised). -/
theorem readContent_spec (fs : QString → File) (data : List Nat)
    (filepath : QString) :
    (data ≠ [] → ReadContent fs data filepath = data)
    ∧ (data = [] →
        ((fs filepath).size ≤ kMaxFileSize → (fs filepath).openOk = true →
          ReadContent fs data filepath = (fs filepath).contents)
        ∧ (¬((fs filepath).size ≤ kMaxFileSize
            ∧ (fs filepath).openOk = true) →
          ReadContent fs data filepath = [])) := by
  constructor
  · intro h
    cases data with
    | nil => exact absurd rfl h
    | cons a l => simp [ReadContent]
  · intro h
    subst h
    constructor
    · intro h1 h2
      simp [ReadContent, ReadFile, h1, h2]
    · intro h12
      simp only [ReadContent, ReadFile, List.isEmpty_nil, if_true]
      rw [if_neg h12]

/-- A file system with one readable small file holding `[7]`. -/
def fsOk : QString → File :=
  fun _ => { size := 3, openOk := true, contents := [7] }

/-- A file system whose file fails to open. -/
def fsBad : QString → File :=
  fun _ => { size := 3, openOk := false, contents := [7] }

/-- Witness for C7: non-empty data passes through; empty data reads the
file; a file that does not open yields an empty buffer. -/
theorem readContent_spec_witness :
    ReadContent fsOk [1, 2] 0 = [1, 2]
    ∧ ReadContent fsOk [] 0 = [7]
    ∧ ReadContent fsBad [] 0 = [] :=
  ⟨(readContent_spec fsOk [1, 2] 0).1 (by decide),
    ((readContent_spec fsOk [] 0).2 rfl).1 (by decide) rfl,
    ((readContent_spec fsBad [] 0).2 rfl).2 (by decide)⟩

/-- C10: for every content buffer on which `Init` fails (oversized,
unparsable, or invalid metadata), `ReadThumbnail` returns a
default-constructed null `QImage` rather than raising; on success it returns
the original image of the state's first paintable frame. -/
theorem readThumbnail_spec (env : Env) (content : List Nat) :
    (∀ e, (Init env content 0).1 = InitData.error e →
      ReadThumbnail env content = QImage.defaultConstructed
      ∧ (ReadThumbnail env content).isNull = true)
    ∧ (∀ s, (Init env content 0).1 = InitData.state s →
      ReadThumbnail env content = s.frameForPaint.original) := by
  constructor
  · intro e he
    simp [ReadThumbnail, he, QImage.defaultConstructed]
  · intro s hs
    simp [ReadThumbnail, hs]

/-- Witness for C10: a failing and a succeeding initialization. -/
theorem readThumbnail_spec_witness :
    (ReadThumbnail envFail [] = QImage.defaultConstructed
      ∧ (ReadThumbnail envFail []).isNull = true)
    ∧ ReadThumbnail envGood [] = stateGood.frameForPaint.original :=
  ⟨(readThumbnail_spec envFail []).1 Error.ParseFailed (by decide),
    (readThumbnail_spec envGood []).2 stateGood (by decide)⟩

/-- Helper for C8: the lifecycle invariant, by induction over reachability.
`initDone` has run at most once, has not yet run while the callback is still
pending, and has run exactly once when the controller is alive and the
callback has been delivered. -/
theorem lifeInvariant (s : LifeState) (h : ReachableLife s) :
    s.initDoneRuns ≤ 1
    ∧ (s.pending = true → s.initDoneRuns = 0)
    ∧ (s.alive = true → s.pending = false → s.initDoneRuns = 1) := by
  induction h with
  | refl => exact ⟨by decide, by decide, by decide⟩
  | tail _ hstep ih =>
      cases hstep with
      | deliverAlive hp ha =>
          have h0 := ih.2.1 hp
          exact ⟨by simp [h0], by simp, fun _ _ => by simp [h0]⟩
      | deliverDead hp ha =>
          exact ⟨ih.1, by simp, fun halive _ => absurd halive (by simp [ha])⟩
      | destroy ha =>
          exact ⟨ih.1, fun hp => ih.2.1 hp,
            fun halive _ => absurd halive (by simp)⟩

/-- C8: on every reachable lifecycle state, `initDone` has executed at most
once; it has executed exactly once whenever the controller is alive and its
scheduled callback has been delivered; after destruction no step ever runs
`initDone` again (delivery on a dead controller is a no-op); and `initDone`
dispatches every outcome to exactly one of `parseDone` and `parseFailed`. -/
theorem initDone_exactly_once :
    (∀ s, ReachableLife s →
      s.initDoneRuns ≤ 1
      ∧ (s.alive = true → s.pending = false → s.initDoneRuns = 1)
      ∧ (s.alive = false → ∀ s', LifeStep s s' →
          s'.initDoneRuns = s.initDoneRuns))
    ∧ (∀ data : InitData,
        (∃ st, data = InitData.state st
          ∧ initDone data = InitDispatch.parseDone st)
        ∨ (∃ e, data = InitData.error e
          ∧ initDone data = InitDispatch.parseFailed e))
    ∧ (∀ data st e, initDone data = InitDispatch.parseDone st →
        initDone data ≠ InitDispatch.parseFailed e) := by
  refine ⟨?_, ?_, ?_⟩
  · intro s h
    obtain ⟨h1, h2, h3⟩ := lifeInvariant s h
    refine ⟨h1, h3, ?_⟩
    intro hdead s' hstep
    cases hstep with
    | deliverAlive hp ha => rw [hdead] at ha; cases ha
    | deliverDead hp ha => rfl
    | destroy ha => rfl
  · intro data
    cases data with
    | state st => exact Or.inl ⟨st, rfl, rfl⟩
    | error e => exact Or.inr ⟨e, rfl, rfl⟩
  · intro data st e h1 h2
    rw [h1] at h2
    cases h2

/-- Witness for C8: the state after the constructor's callback is delivered
to the live controller. -/
theorem initDone_exactly_once_witness :
    (⟨true, false, 1⟩ : LifeState).initDoneRuns ≤ 1
    ∧ ((⟨true, false, 1⟩ : LifeState).alive = true →
        (⟨true, false, 1⟩ : LifeState).pending = false →
        (⟨true, false, 1⟩ : LifeState).initDoneRuns = 1)
    ∧ ((⟨true, false, 1⟩ : LifeState).alive = false →
        ∀ s', LifeStep (⟨true, false, 1⟩ : LifeState) s' →
          s'.initDoneRuns = (⟨true, false, 1⟩ : LifeState).initDoneRuns) :=
  initDone_exactly_once.1 ⟨true, false, 1⟩
    (Relation.ReflTransGen.single
      (LifeStep.deliverAlive LifeState.start rfl rfl))

end Lottie
